import Mathlib

/-!
# video_tube: user controller

A shallow embedding of `src/controllers/user.controller.js`.

Each request handler becomes a function from the collections it reads (and the
request) to the thrown error or the response, paired with the collections after
the call.  The collaborators whose code is not part of the controller (the
token signer, the password hash, the media upload, the `User` model's `create`)
are fields of `Env`, and the casts that the `User` schema applies to the filter
of a query are a field of the store.
-/

namespace VideoTube

/-! ## JavaScript values -/

/-- White space and line terminators, the characters `String.prototype.trim` strips. -/
def isJsWhiteSpace (c : Char) : Bool :=
  let n := c.toNat
  n == 0x09 || n == 0x0A || n == 0x0B || n == 0x0C || n == 0x0D || n == 0x20 ||
  n == 0xA0 || n == 0x1680 || (0x2000 ≤ n && n ≤ 0x200A) || n == 0x2028 ||
  n == 0x2029 || n == 0x202F || n == 0x205F || n == 0x3000 || n == 0xFEFF

/-- The method `String.prototype.trim`. -/
def jsTrim (s : String) : String :=
  ⟨((s.data.dropWhile isJsWhiteSpace).reverse.dropWhile isJsWhiteSpace).reverse⟩

/-- Truthiness of a value that is a string or `undefined`: only a non-empty string is truthy. -/
def truthy : Option String → Bool
  | none => false
  | some s => s != ""

/-- The expression `a || b` on values that are strings or `undefined`. -/
def jsOr (a b : Option String) : Option String :=
  if truthy a then a else b

/-- A promise, with the value it resolves to or the message it rejects with. -/
structure JsPromise (α : Type) where
  settled : Except String α

/-- A promise is an object, and every object is truthy. -/
def JsPromise.truthy {α : Type} (_p : JsPromise α) : Bool := true

/-- What a handler throws: an `AppiError` with its status, or a runtime error
(`TypeError`, a rejected promise of a collaborator that is awaited) with its
message.  The last case is no throw of the handler: a promise that nobody
awaits rejected, and the process exits on the unhandled rejection without a
response. -/
inductive JsError where
  | appi (statusCode : Nat) (message : String)
  | native (message : String)
  | unhandledRejection (message : String)
  deriving DecidableEq, Repr

/-- The property `error.message`. -/
def JsError.message : JsError → String
  | .appi _ m => m
  | .native m => m
  | .unhandledRejection m => m

/-- The expression `await p`. -/
def await {α : Type} (p : JsPromise α) : Except JsError α :=
  match p.settled with
  | .ok a => .ok a
  | .error m => .error (.native m)

/-! ## Data model -/

/-- A document of the `users` collection. -/
structure User where
  _id : Nat
  userName : String
  email : String
  fullName : String
  password : String
  avatar : String
  coverImage : String
  watchHistory : List Nat
  refreshToken : Option String
  deriving DecidableEq, Repr

/-- A document of the `subscriptions` collection: `subscriber` follows `channel`. -/
structure Subscription where
  subscriber : Nat
  channel : Nat
  deriving DecidableEq, Repr

/-- A document of the `videos` collection. -/
structure Video where
  _id : Nat
  title : String
  owner : Nat
  deriving DecidableEq, Repr

/-- The casts that the `User` schema applies to the `userName` and the `email` of
a query filter (the setters of the path, such as `lowercase` or `trim`).  The
schema, `models/user.model.js`, is not among the sources, so the casts are
parameters of the store. -/
structure UserSchema where
  castUserName : String → String
  castEmail : String → String

/-- The collections with the schema of `users`, and the log of the calls made to
`uploadOnCloudinary`. -/
structure World where
  userSchema : UserSchema
  users : List User
  subscriptions : List Subscription
  videos : List Video
  uploads : List (Option String)

/-- The arguments of `new ApiResponse(statusCode, data, message)`. -/
structure ApiResponse (α : Type) where
  statusCode : Nat
  data : α
  message : String
  deriving DecidableEq, Repr

/-- What a handler sends: `res.status(..).cookie(..).clearCookie(..).json(..)`. -/
structure HttpResponse (α : Type) where
  status : Nat
  cookies : List (String × Option String)
  clearedCookies : List String
  json : ApiResponse α
  deriving DecidableEq, Repr

/-- The payload `jwt.verify` decodes. -/
structure JwtPayload where
  _id : Option Nat
  deriving DecidableEq, Repr

/-- What `uploadOnCloudinary` resolves to when the upload went through. -/
structure CloudinaryResponse where
  url : Option String
  deriving DecidableEq, Repr

/-- An object with string properties, such as `{ accessToken, refreshToken }`. -/
abbrev JsObject := List (String × String)

/-- The property `o[key]`: `undefined` when the object has no such property. -/
def JsObject.get (o : JsObject) (key : String) : Option String :=
  (o.find? (fun p => p.1 == key)).map (fun p => p.2)

/-- The argument of `User.create` in `registerUser`. -/
structure UserDoc where
  fullName : Option String
  avatar : Option String
  coverImage : Option String
  email : Option String
  password : Option String
  userName : String
  deriving DecidableEq, Repr

/-- The collaborators of the controller. -/
structure Env where
  /-- The method `String.prototype.toLowerCase`. -/
  toLowerCase : String → String
  /-- The call `jwt.verify(token, process.env.REFRESH_TOKEN_SECRET)`. -/
  jwtVerify : String → Except String JwtPayload
  /-- The method `user.generateAccessToken()`. -/
  generateAccessToken : User → String
  /-- The method `user.generateRefreshToken()`. -/
  generateRefreshToken : User → String
  /-- The method `user.isPasswordCorrect(password)`, which returns a promise. -/
  isPasswordCorrect : User → Option String → JsPromise Bool
  /-- The password as `user.save()` stores it. -/
  hashPassword : String → String
  /-- The call `uploadOnCloudinary(localPath)`: the response of the upload, or `null`. -/
  uploadOnCloudinary : Option String → Option CloudinaryResponse
  /-- The call `User.create(doc)` on the collection: the stored document, or the message it rejects with. -/
  userCreate : List User → UserDoc → Except String User

/-! ## Queries -/

/-- The query `User.findById(id)`. -/
def findById (users : List User) (id : Option Nat) : Option User :=
  match id with
  | none => none
  | some i => users.find? (fun u => u._id == i)

/-- A criterion `{ field: value }` of a `User` query: the value is cast by the
schema and compared with the stored one.  An `undefined` value is sent as
`null`, which matches only a document without the field, and every `User` has
the field. -/
def fieldEq (cast : String → String) (stored : String) (value : Option String) : Bool :=
  match value with
  | none => false
  | some v => stored == cast v

/-- The query `User.findOne({ $or: [{ userName }, { email }] })`. -/
def findOneByUserNameOrEmail (schema : UserSchema) (users : List User)
    (userName email : Option String) : Option User :=
  users.find? (fun u =>
    fieldEq schema.castUserName u.userName userName || fieldEq schema.castEmail u.email email)

/-- The document with this `_id` (the first one) replaced by its image under `f`. -/
def updateById (users : List User) (id : Nat) (f : User → User) : List User :=
  match users with
  | [] => []
  | u :: rest => if u._id == id then f u :: rest else u :: updateById rest id f

/-- The call `user.save()`: the document replaces the stored one with its `_id`. -/
def saveUser (users : List User) (user : User) : List User :=
  updateById users user._id (fun _ => user)

/-- The query `User.findOne({ $or: [{ email }, { userName }] })`. -/
def findOneByEmailOrUserName (schema : UserSchema) (users : List User)
    (email userName : Option String) : Option User :=
  users.find? (fun u =>
    fieldEq schema.castEmail u.email email || fieldEq schema.castUserName u.userName userName)

/-- The fallback `error?.message || fallback`. -/
def messageOr (e : JsError) (fallback : String) : String :=
  if e.message != "" then e.message else fallback

/-- A user document after `.select("-password -refreshToken")`. -/
structure UserView where
  _id : Nat
  userName : String
  email : String
  fullName : String
  avatar : String
  coverImage : String
  watchHistory : List Nat
  deriving DecidableEq, Repr

/-- The projection `.select("-password -refreshToken")`. -/
def selectPublic (u : User) : UserView :=
  { _id := u._id, userName := u.userName, email := u.email, fullName := u.fullName,
    avatar := u.avatar, coverImage := u.coverImage, watchHistory := u.watchHistory }

/-! ## generateAccessAndRefreshTokens -/

/-- The function `generateAccessAndRefreshTokens(userId)`: the object it returns
(or the error it throws) and the `users` collection after it. -/
def generateAccessAndRefreshTokens (env : Env) (users : List User) (userId : Nat) :
    Except JsError JsObject × List User :=
  match findById users (some userId) with
  | none =>
    (.error (.appi 500
      (messageOr (.native "Cannot read properties of null (reading 'generateAccessToken')")
        "Something went wrong while geberating refresh and access token")), users)
  | some user =>
    let accessToken := env.generateAccessToken user
    let refreshToken := env.generateRefreshToken user
    let user := { user with refreshToken := some refreshToken }
    (.ok [("accessToken", accessToken), ("refreshToken", refreshToken)], saveUser users user)

/-! ## registerUser -/

/-- An entry of `req.files.avatar` or `req.files.coverImage`. -/
structure UploadedFile where
  path : Option String
  deriving DecidableEq, Repr

/-- The object `req.files`, each entry a list of files or absent. -/
structure Files where
  avatar : Option (List UploadedFile)
  coverImage : Option (List UploadedFile)
  deriving DecidableEq, Repr

/-- The request of `registerUser`: the four fields of `req.body`, and `req.files`. -/
structure RegisterRequest where
  fullName : Option String
  email : Option String
  userName : Option String
  password : Option String
  files : Option Files
  deriving DecidableEq, Repr

/-- The test `[fullName, email, userName, password].some((field) => field?.trim() === "")`. -/
def someFieldBlank (req : RegisterRequest) : Bool :=
  [req.fullName, req.email, req.userName, req.password].any
    (fun field => field.map jsTrim == some "")

/-- The expression `req.files?.avatar[0]?.path`: only `req.files` is guarded, so
indexing an absent `avatar` throws. -/
def avatarLocalPathOf (files : Option Files) : Except JsError (Option String) :=
  match files with
  | none => .ok none
  | some f =>
    match f.avatar with
    | none => .error (.native "Cannot read properties of undefined (reading '0')")
    | some [] => .ok none
    | some (file :: _) => .ok file.path

/-- The guarded read of `req.files.coverImage[0].path`. -/
def coverImageLocalPathOf (files : Option Files) : Option String :=
  match files with
  | none => none
  | some f =>
    match f.coverImage with
    | some (file :: _) => file.path
    | _ => none

/-- The handler `registerUser`. -/
def registerUser (env : Env) (w : World) (req : RegisterRequest) :
    Except JsError (HttpResponse UserView) × World :=
  if someFieldBlank req then
    (.error (.appi 400 "All fields are required"), w)
  else
    match findOneByUserNameOrEmail w.userSchema w.users req.userName req.email with
    | some _ => (.error (.appi 409 "User with email or userName is already exists"), w)
    | none =>
      match avatarLocalPathOf req.files with
      | .error e => (.error e, w)
      | .ok avatarLocalPath =>
        let coverImageLocalPath := coverImageLocalPathOf req.files
        if !truthy avatarLocalPath then
          (.error (.appi 400 "Avatar file is required"), w)
        else
          let avatar := env.uploadOnCloudinary avatarLocalPath
          let coverImage := env.uploadOnCloudinary coverImageLocalPath
          let w1 := { w with uploads := w.uploads ++ [avatarLocalPath, coverImageLocalPath] }
          match avatar with
          | none => (.error (.appi 400 "Avatar file is required..."), w1)
          | some avatar =>
            match req.userName with
            | none =>
              (.error (.native "Cannot read properties of undefined (reading 'toLowerCase')"), w1)
            | some userName =>
              let doc : UserDoc :=
                { fullName := req.fullName
                  avatar := avatar.url
                  coverImage := jsOr (coverImage.bind (fun c => c.url)) (some "")
                  email := req.email
                  password := req.password
                  userName := env.toLowerCase userName }
              match env.userCreate w1.users doc with
              | .error m => (.error (.native m), w1)
              | .ok user =>
                let w2 := { w1 with users := w1.users ++ [user] }
                match findById w2.users (some user._id) with
                | none => (.error (.appi 500 "Something went wrong while registering user"), w2)
                | some createdUser =>
                  (.ok { status := 201, cookies := [], clearedCookies := [],
                         json := { statusCode := 200, data := selectPublic createdUser,
                                   message := "User registered successfully" } }, w2)

/-! ## loginUser -/

/-- The request of `loginUser`: the fields of `req.body`. -/
structure LoginRequest where
  email : Option String
  userName : Option String
  password : Option String
  deriving DecidableEq, Repr

/-- The data of the response of `loginUser`. -/
structure LoginData where
  user : Option UserView
  accessToken : Option String
  refreshToken : Option String
  deriving DecidableEq, Repr

/-- The guard `!(email || !userName)` of `loginUser`: true when it throws. -/
def loginGuardRejects (email userName : Option String) : Bool :=
  !(truthy email || !truthy userName)

/-- The handler `loginUser`. -/
def loginUser (env : Env) (w : World) (req : LoginRequest) :
    Except JsError (HttpResponse LoginData) × World :=
  if loginGuardRejects req.email req.userName then
    (.error (.appi 400 "userName or email id required"), w)
  else
    match findOneByEmailOrUserName w.userSchema w.users req.email req.userName with
    | none => (.error (.appi 404 "User does not exists"), w)
    | some user =>
      match await (env.isPasswordCorrect user req.password) with
      | .error e => (.error e, w)
      | .ok isPasswordValid =>
        if !isPasswordValid then
          (.error (.appi 401 "Invalid user credentials"), w)
        else
          match generateAccessAndRefreshTokens env w.users user._id with
          | (.error e, users) => (.error e, { w with users := users })
          | (.ok tokens, users) =>
            let accessToken := tokens.get "accessToken"
            let refreshToken := tokens.get "refreshToken"
            let w1 := { w with users := users }
            let loggedInUser := (findById w1.users (some user._id)).map selectPublic
            (.ok { status := 200,
                   cookies := [("accessToken", accessToken), ("refreshToken", refreshToken)],
                   clearedCookies := [],
                   json := { statusCode := 200,
                             data := { user := loggedInUser, accessToken := accessToken,
                                       refreshToken := refreshToken },
                             message := "User logged in successfully" } }, w1)

/-! ## logoutUser -/

/-- The handler `logoutUser`, for the authenticated user `req.user._id`. -/
def logoutUser (w : World) (userId : Nat) : Except JsError (HttpResponse Unit) × World :=
  let users := updateById w.users userId (fun u => { u with refreshToken := none })
  (.ok { status := 200, cookies := [], clearedCookies := ["accessToken", "refreshToken"],
         json := { statusCode := 200, data := (), message := "User logged Out" } },
   { w with users := users })

/-! ## refreshAccessToken -/

/-- The request of `refreshAccessToken`: `req.cookies.refreshToken` and `req.body.refreshToken`. -/
structure RefreshRequest where
  cookieRefreshToken : Option String
  bodyRefreshToken : Option String
  deriving DecidableEq, Repr

/-- The data of the response of `refreshAccessToken`. -/
structure RefreshData where
  accessToken : Option String
  refreshToken : Option String
  deriving DecidableEq, Repr

/-- The value `req.cookies.refreshToken || req.body.refreshToken`. -/
def incomingRefreshTokenOf (req : RefreshRequest) : Option String :=
  jsOr req.cookieRefreshToken req.bodyRefreshToken

/-- The body of the `try` block of `refreshAccessToken`. -/
def refreshTry (env : Env) (w : World) (incomingRefreshToken : String) :
    Except JsError (HttpResponse RefreshData) × World :=
  match env.jwtVerify incomingRefreshToken with
  | .error m => (.error (.native m), w)
  | .ok decodedToken =>
    match findById w.users decodedToken._id with
    | none => (.error (.native "Class constructor AppiError cannot be invoked without 'new'"), w)
    | some user =>
      if some incomingRefreshToken != user.refreshToken then
        (.error (.appi 401 "Refresh token is expired or used"), w)
      else
        match generateAccessAndRefreshTokens env w.users user._id with
        | (.error e, users) => (.error e, { w with users := users })
        | (.ok tokens, users) =>
          let accessToken := tokens.get "accessToken"
          let newRefreshToken := tokens.get "newRefreshToken"
          (.ok { status := 200,
                 cookies := [("accessToken", accessToken), ("refreshToken", newRefreshToken)],
                 clearedCookies := [],
                 json := { statusCode := 200,
                           data := { accessToken := accessToken, refreshToken := newRefreshToken },
                           message := "Access token refreshed" } },
           { w with users := users })

/-- The `catch` block of `refreshAccessToken`: whatever was thrown becomes a 401. -/
def refreshCatch (e : JsError) : JsError :=
  .appi 401 (messageOr e "Invalid refresh token")

/-- The handler `refreshAccessToken`. -/
def refreshAccessToken (env : Env) (w : World) (req : RefreshRequest) :
    Except JsError (HttpResponse RefreshData) × World :=
  match incomingRefreshTokenOf req with
  | none => (.error (.appi 400 "Unauthorize request"), w)
  | some incomingRefreshToken =>
    if !truthy (some incomingRefreshToken) then
      (.error (.appi 400 "Unauthorize request"), w)
    else
      match refreshTry env w incomingRefreshToken with
      | (.error e, w1) => (.error (refreshCatch e), w1)
      | (.ok res, w1) => (.ok res, w1)

/-! ## changeCurrentPassword -/

/-- The request of `changeCurrentPassword`: `req.user?._id` and the fields of `req.body`. -/
structure ChangePasswordRequest where
  userId : Option Nat
  oldPassword : Option String
  newPassword : String
  deriving DecidableEq, Repr

/-- The handler `changeCurrentPassword`.  The result of `user.isPasswordCorrect`
is tested as it is returned, without `await`.  When that promise rejects, nobody
handles the rejection: the process exits on it before `save` has stored
anything, and no response is sent. -/
def changeCurrentPassword (env : Env) (w : World) (req : ChangePasswordRequest) :
    Except JsError (HttpResponse Unit) × World :=
  match findById w.users req.userId with
  | none => (.error (.native "Cannot read properties of null (reading 'isPasswordCorrect')"), w)
  | some user =>
    let isPasswordCorrect := env.isPasswordCorrect user req.oldPassword
    if !isPasswordCorrect.truthy then
      (.error (.appi 400 "Invalid old password"), w)
    else
      match isPasswordCorrect.settled with
      | .error m => (.error (.unhandledRejection m), w)
      | .ok _ =>
        let user := { user with password := env.hashPassword req.newPassword }
        (.ok { status := 200, cookies := [], clearedCookies := [],
               json := { statusCode := 200, data := (),
                         message := "Password changed successfully" } },
         { w with users := saveUser w.users user })

/-! ## getUserChannelProfile -/

/-- The request of `getUserChannelProfile`: `req.params.userName` and `req.user?._id`. -/
structure ChannelRequest where
  userName : Option String
  viewerId : Option Nat
  deriving DecidableEq, Repr

/-- A document of the aggregation of `getUserChannelProfile`, after `$project`. -/
structure ChannelProfile where
  _id : Nat
  fullName : String
  userName : String
  subscribersCount : Nat
  channelsSubscribedToCount : Nat
  isSubscribed : Bool
  avatar : String
  coverImage : String
  email : String
  deriving DecidableEq, Repr

/-- The operator `$in: [value, array]` with an array of ids: an `undefined` value
is sent as `null`, which is no id. -/
def mongoIn (value : Option Nat) (array : List Nat) : Bool :=
  match value with
  | none => false
  | some v => array.contains v

/-- The stages `$lookup`, `$addFields` and `$project` on one matched user. -/
def channelProfileOf (subscriptions : List Subscription) (viewerId : Option Nat) (u : User) :
    ChannelProfile :=
  let subscribers := subscriptions.filter (fun e => e.channel == u._id)
  let subscribedTo := subscriptions.filter (fun e => e.subscriber == u._id)
  { _id := u._id
    fullName := u.fullName
    userName := u.userName
    subscribersCount := subscribers.length
    channelsSubscribedToCount := subscribedTo.length
    isSubscribed := mongoIn viewerId (subscribers.map (fun e => e.subscriber))
    avatar := u.avatar
    coverImage := u.coverImage
    email := u.email }

/-- The pipeline `User.aggregate([...])` of `getUserChannelProfile`. -/
def channelAggregate (env : Env) (w : World) (viewerId : Option Nat) (userName : String) :
    List ChannelProfile :=
  (w.users.filter (fun u => u.userName == env.toLowerCase userName)).map
    (channelProfileOf w.subscriptions viewerId)

/-- The handler `getUserChannelProfile`. -/
def getUserChannelProfile (env : Env) (w : World) (req : ChannelRequest) :
    Except JsError (HttpResponse ChannelProfile) :=
  match req.userName with
  | none => .error (.appi 400 "Username is missing")
  | some userName =>
    if !truthy (some (jsTrim userName)) then
      .error (.appi 400 "Username is missing")
    else
      match channelAggregate env w req.viewerId userName with
      | [] => .error (.appi 404 "Channel does not exists")
      | channel0 :: _ =>
        .ok { status := 200, cookies := [], clearedCookies := [],
              json := { statusCode := 200, data := channel0,
                        message := "User channel fetched successfully" } }

/-! ## getWatchHistory -/

/-- The owner of a video after `$project: { fullName: 1, userName: 1, avatar: 1 }`. -/
structure OwnerView where
  _id : Nat
  fullName : String
  userName : String
  avatar : String
  deriving DecidableEq, Repr

/-- A video of the joined `watchHistory`, its `owner` the `$first` of the owner lookup. -/
structure VideoView where
  _id : Nat
  title : String
  owner : Option OwnerView
  deriving DecidableEq, Repr

/-- A document of the aggregation of `getWatchHistory`: the user, with
`watchHistory` replaced by the joined videos. -/
structure WatchHistoryDoc where
  user : User
  watchHistory : List VideoView
  deriving DecidableEq, Repr

/-- The inner pipeline of the `videos` lookup: the owner lookup and `$first`. -/
def videoViewOf (users : List User) (v : Video) : VideoView :=
  let owner : List OwnerView :=
    (users.filter (fun u => u._id == v.owner)).map
      (fun u => { _id := u._id, fullName := u.fullName, userName := u.userName, avatar := u.avatar })
  { _id := v._id, title := v.title, owner := owner.head? }

/-- The pipeline `User.aggregate([...])` of `getWatchHistory`. -/
def watchHistoryAggregate (w : World) (userId : Nat) : List WatchHistoryDoc :=
  (w.users.filter (fun u => u._id == userId)).map
    (fun u =>
      { user := u
        watchHistory :=
          (w.videos.filter (fun v => u.watchHistory.contains v._id)).map (videoViewOf w.users) })

/-- The member `watchHistory` read on the array that `aggregate` returns: an array
has its indices and `length`, and no member of that name, so the read is `undefined`. -/
def arrayWatchHistory (_docs : List WatchHistoryDoc) : Option (List VideoView) :=
  none

/-- The test `!user?.watchHistory?.length`. -/
def watchHistoryGuardRejects (docs : List WatchHistoryDoc) : Bool :=
  match (arrayWatchHistory docs).map (fun h => h.length) with
  | none => true
  | some n => n == 0

/-- The handler `getWatchHistory`, for the authenticated user `req.user._id`. -/
def getWatchHistory (w : World) (userId : Nat) : Except JsError (HttpResponse (List VideoView)) :=
  let user := watchHistoryAggregate w userId
  if watchHistoryGuardRejects user then
    .error (.appi 404 "Watch history not found")
  else
    match user with
    | [] => .error (.native "Cannot read properties of undefined (reading 'watchHistory')")
    | user0 :: _ =>
      .ok { status := 200, cookies := [], clearedCookies := [],
            json := { statusCode := 200, data := user0.watchHistory,
                      message := "Watch history fetchedd successfully" } }

/-! ## A concrete environment and store -/

/-- ASCII lowercasing, which is what `toLowerCase` does on ASCII strings. -/
def asciiLower (s : String) : String :=
  ⟨s.data.map Char.toLower⟩

/-- A `User.create` with the unique indexes on `userName` and `email` and the
required fields of the data model. -/
def demoCreate (users : List User) (doc : UserDoc) : Except String User :=
  if users.any (fun u => u.userName == doc.userName || some u.email == doc.email) then
    .error "E11000 duplicate key error collection: users"
  else
    match doc.fullName, doc.email, doc.password, doc.avatar with
    | some fullName, some email, some password, some avatar =>
      .ok { _id := users.length + 1, userName := doc.userName, email := email,
            fullName := fullName, password := "#" ++ password, avatar := avatar,
            coverImage := doc.coverImage.getD "", watchHistory := [], refreshToken := none }
    | _, _, _, _ => .error "User validation failed"

/-- An environment to evaluate the handlers in: the hash of a password is the
password after a `#`; the refresh tokens that verify are those of user 1. -/
def demoEnv : Env where
  toLowerCase := asciiLower
  jwtVerify := fun t =>
    if t == "refresh-old" || t == "refresh-new" then .ok { _id := some 1 }
    else .error "invalid signature"
  generateAccessToken := fun _ => "access-new"
  generateRefreshToken := fun _ => "refresh-new"
  isPasswordCorrect := fun u p =>
    match p with
    | none => { settled := .error "data and hash arguments required" }
    | some p => { settled := .ok (u.password == "#" ++ p) }
  hashPassword := fun p => "#" ++ p
  uploadOnCloudinary := fun path =>
    match path with
    | none => none
    | some p => some { url := some ("https://cdn.example/" ++ p) }
  userCreate := demoCreate

/-- The user of the example of the specification, logged in with the token `refresh-old`. -/
def ada : User :=
  { _id := 1, userName := "adal", email := "ada@x.io", fullName := "Ada L", password := "#p1",
    avatar := "https://cdn.example/ada.png", coverImage := "", watchHistory := [10],
    refreshToken := some "refresh-old" }

/-- A second user, who owns video 10 and follows `ada`. -/
def bob : User :=
  { _id := 2, userName := "bob", email := "bob@x.io", fullName := "Bob", password := "#p2",
    avatar := "https://cdn.example/bob.png", coverImage := "", watchHistory := [],
    refreshToken := none }

/-- A schema as the data model describes it: the `userName` of a filter is
lowercased, the `email` is taken as it is. -/
def demoSchema : UserSchema :=
  { castUserName := asciiLower, castEmail := fun email => email }

/-- A store with the two users, one subscription and one video. -/
def demoWorld : World :=
  { userSchema := demoSchema
    users := [ada, bob]
    subscriptions := [{ subscriber := 2, channel := 1 }]
    videos := [{ _id := 10, title := "intro", owner := 2 }]
    uploads := [] }

/-! ## refreshAccessToken -/

/-- C1: the refresh of a user whose stored token is the presented one answers 200
and stores a new refresh token, but the `refreshToken` of the response (and of the
cookie) is `undefined`, not the stored token: the handler reads the property
`newRefreshToken` of an object whose properties are `accessToken` and `refreshToken`. -/
theorem refreshAccessToken_response_lacks_refresh_token :
    (refreshAccessToken demoEnv demoWorld
        { cookieRefreshToken := some "refresh-old", bodyRefreshToken := none }).1
      = .ok { status := 200,
              cookies := [("accessToken", some "access-new"), ("refreshToken", none)],
              clearedCookies := [],
              json := { statusCode := 200,
                        data := { accessToken := some "access-new", refreshToken := none },
                        message := "Access token refreshed" } }
    ∧ (findById (refreshAccessToken demoEnv demoWorld
        { cookieRefreshToken := some "refresh-old", bodyRefreshToken := none }).2.users (some 1)).map
          (fun u => u.refreshToken) = some (some "refresh-new") := by
  constructor <;> rfl

/-- A non-empty string is truthy. -/
theorem truthy_some_of_ne_empty (t : String) (ht : t ≠ "") : truthy (some t) = true := by
  simp [truthy, ht]

/-- C2: a presented token that verifies and whose user exists, but that is not the
token stored for that user (or none is stored), is answered with the 401
"Refresh token is expired or used"; there is no response, hence no token, and the
store is as it was. -/
theorem refreshAccessToken_rejects_other_token (env : Env) (w : World) (req : RefreshRequest)
    (t : String) (payload : JwtPayload) (user : User)
    (hin : incomingRefreshTokenOf req = some t) (ht : t ≠ "")
    (hv : env.jwtVerify t = .ok payload)
    (hu : findById w.users payload._id = some user)
    (hne : user.refreshToken ≠ some t) :
    refreshAccessToken env w req = (.error (.appi 401 "Refresh token is expired or used"), w) := by
  have hne2 : (some t != user.refreshToken) = true := by
    simp only [bne_iff_ne, ne_eq]
    exact fun h => hne h.symm
  simp [refreshAccessToken, hin, truthy_some_of_ne_empty t ht, refreshTry, hv, hu, hne2,
    refreshCatch, messageOr, JsError.message]

/-- The theorem `refreshAccessToken_rejects_other_token` at the token that verifies for
`ada` while another one is stored. -/
theorem refreshAccessToken_rejects_other_token_witness :
    refreshAccessToken demoEnv demoWorld
        { cookieRefreshToken := none, bodyRefreshToken := some "refresh-new" }
      = (.error (.appi 401 "Refresh token is expired or used"), demoWorld) :=
  refreshAccessToken_rejects_other_token demoEnv demoWorld
    { cookieRefreshToken := none, bodyRefreshToken := some "refresh-new" }
    "refresh-new" { _id := some 1 } ada rfl (by decide) rfl rfl (by decide)

/-! ## loginUser -/

/-- C3: the guard of `loginUser` is `!(email || !userName)`.  A login that gives the
userName alone (with the right password) is answered with the 400 "userName or
email id required", and a login that gives neither passes the guard and reaches
the lookup, which answers 404. -/
theorem loginUser_guard_is_inverted :
    loginUser demoEnv demoWorld { email := none, userName := some "adal", password := some "p1" }
      = (.error (.appi 400 "userName or email id required"), demoWorld)
    ∧ loginUser demoEnv demoWorld { email := none, userName := none, password := some "p1" }
      = (.error (.appi 404 "User does not exists"), demoWorld) := by
  constructor <;> rfl

/-! ## changeCurrentPassword -/

/-- C4: `changeCurrentPassword` tests the promise that `isPasswordCorrect` returns,
not its value.  For `ada`, whose password is `p1`, the old password `wrong` does not
verify, and yet the handler answers 200 and stores the hash of the new password. -/
theorem changeCurrentPassword_accepts_wrong_old_password :
    (demoEnv.isPasswordCorrect ada (some "wrong")).settled = .ok false
    ∧ (changeCurrentPassword demoEnv demoWorld
        { userId := some 1, oldPassword := some "wrong", newPassword := "new" }).1
      = .ok { status := 200, cookies := [], clearedCookies := [],
              json := { statusCode := 200, data := (),
                        message := "Password changed successfully" } }
    ∧ (findById (changeCurrentPassword demoEnv demoWorld
        { userId := some 1, oldPassword := some "wrong", newPassword := "new" }).2.users
          (some 1)).map (fun u => u.password) = some "#new" := by
  refine ⟨rfl, rfl, rfl⟩

/-! ## registerUser -/

/-- A request that passes the field test and the existence query and has an avatar
path reaches the uploads, whatever the collaborators answer. -/
theorem registerUser_reaches_uploads (env : Env) (w : World) (req : RegisterRequest)
    (path : String) (hb : someFieldBlank req = false)
    (hf : findOneByUserNameOrEmail w.userSchema w.users req.userName req.email = none)
    (ha : avatarLocalPathOf req.files = .ok (some path)) (hp : path ≠ "") :
    (registerUser env w req).2.uploads
      = w.uploads ++ [some path, coverImageLocalPathOf req.files] := by
  simp only [registerUser, hb, hf, ha, truthy_some_of_ne_empty path hp]
  cases env.uploadOnCloudinary (some path) with
  | none => rfl
  | some avatar =>
    simp only []
    cases req.userName with
    | none => rfl
    | some userName =>
      simp only []
      cases env.userCreate _ _ with
      | error m => rfl
      | ok user =>
        simp only []
        cases findById _ _ <;> rfl

/-- C5, as stated, fails: a request whose userName is that of the stored `adal` up
to case and whose email is hers, but whose `fullName` is blank, is answered with
the 400 of the field test, which comes before the existence query. -/
theorem registerUser_blank_field_before_conflict :
    registerUser demoEnv demoWorld
        { fullName := some "  ", email := some "ada@x.io", userName := some "ADAL",
          password := some "p1",
          files := some { avatar := some [{ path := some "/tmp/a.png" }], coverImage := none } }
      = (.error (.appi 400 "All fields are required"), demoWorld) := by
  rfl

/-- C5, amended: in a store whose schema lowercases the userName of a filter (and
casts the stored email to itself), a request that passes the field test and
whose userName is that of a stored user up to case, or whose email is that
user's, is answered 409, with the store and the upload log as they were. -/
theorem registerUser_conflict (env : Env) (w : World) (req : RegisterRequest) (u : User)
    (hu : u ∈ w.users) (hb : someFieldBlank req = false)
    (hschema : ∀ s, w.userSchema.castUserName s = env.toLowerCase s)
    (hemail : w.userSchema.castEmail u.email = u.email)
    (hmatch : (∃ n, req.userName = some n ∧ env.toLowerCase n = u.userName)
      ∨ req.email = some u.email) :
    registerUser env w req
      = (.error (.appi 409 "User with email or userName is already exists"), w) := by
  have hsome : (findOneByUserNameOrEmail w.userSchema w.users req.userName req.email).isSome
      = true := by
    rw [findOneByUserNameOrEmail, List.find?_isSome]
    refine ⟨u, hu, ?_⟩
    rcases hmatch with ⟨n, hn, hlow⟩ | he
    · simp [fieldEq, hn, hschema, hlow]
    · simp [fieldEq, he, hemail]
  cases hfind : findOneByUserNameOrEmail w.userSchema w.users req.userName req.email with
  | none => simp [hfind] at hsome
  | some found => simp [registerUser, hb, hfind]

/-- The theorem `registerUser_conflict` at the example of the specification: with
`adal` stored, a registration as `ADAL` under another email. -/
theorem registerUser_conflict_witness :
    registerUser demoEnv demoWorld
        { fullName := some "Ada L", email := some "ada2@x.io", userName := some "ADAL",
          password := some "p1",
          files := some { avatar := some [{ path := some "/tmp/a.png" }], coverImage := none } }
      = (.error (.appi 409 "User with email or userName is already exists"), demoWorld) :=
  registerUser_conflict demoEnv demoWorld
    { fullName := some "Ada L", email := some "ada2@x.io", userName := some "ADAL",
      password := some "p1",
      files := some { avatar := some [{ path := some "/tmp/a.png" }], coverImage := none } }
    ada (by decide) rfl (fun _ => rfl) rfl (Or.inl ⟨"ADAL", rfl, rfl⟩)

/-- C6: the field test is `field?.trim() === ""`, which an absent field passes.  A
request without `fullName` is not answered with the 400 of the field test: with the
email of a stored user it reaches the existence query and is answered 409, and
with a fresh userName and email it reaches the uploads. -/
theorem registerUser_absent_field_passes (env : Env) :
    registerUser env demoWorld
        { fullName := none, email := some "ada@x.io", userName := some "adal",
          password := some "p1", files := none }
      = (.error (.appi 409 "User with email or userName is already exists"), demoWorld)
    ∧ (registerUser env demoWorld
        { fullName := none, email := some "eve@x.io", userName := some "eve",
          password := some "p3",
          files := some { avatar := some [{ path := some "/tmp/e.png" }], coverImage := none } }).2.uploads
      = [some "/tmp/e.png", none] := by
  constructor
  · rfl
  · exact registerUser_reaches_uploads env demoWorld _ "/tmp/e.png" rfl rfl rfl (by decide)

/-- C7, as stated, fails: a request with no files at all whose userName and email are
those of a stored user is answered 409, not 400. -/
theorem registerUser_no_files_conflict :
    registerUser demoEnv demoWorld
        { fullName := some "Ada L", email := some "ada@x.io", userName := some "adal",
          password := some "p1", files := none }
      = (.error (.appi 409 "User with email or userName is already exists"), demoWorld) := by
  rfl

/-- C7, amended: a request with no files at all, or with an empty avatar list,
fails with the store and the upload log untouched: with the 400 of the field test
when a field is blank, else with 409 when the existence query finds a user, else
with the 400 "Avatar file is required". -/
theorem registerUser_without_avatar (env : Env) (w : World) (req : RegisterRequest)
    (h : req.files = none ∨ ∃ f, req.files = some f ∧ f.avatar = some []) :
    registerUser env w req =
      (if someFieldBlank req then .error (.appi 400 "All fields are required")
       else if (findOneByUserNameOrEmail w.userSchema w.users req.userName req.email).isSome then
         .error (.appi 409 "User with email or userName is already exists")
       else .error (.appi 400 "Avatar file is required"), w) := by
  have ha : avatarLocalPathOf req.files = .ok none := by
    rcases h with h | ⟨f, hf, hav⟩
    · simp [avatarLocalPathOf, h]
    · simp [avatarLocalPathOf, hf, hav]
  unfold registerUser
  by_cases hb : someFieldBlank req = true
  · simp [hb]
  · cases hfind : findOneByUserNameOrEmail w.userSchema w.users req.userName req.email with
    | some u => simp [hb]
    | none => simp [hb, ha, truthy]

/-- The theorem `registerUser_without_avatar` at a request with an empty avatar list
and a fresh userName and email. -/
theorem registerUser_without_avatar_witness :
    registerUser demoEnv demoWorld
        { fullName := some "Eve", email := some "eve@x.io", userName := some "eve",
          password := some "p3", files := some { avatar := some [], coverImage := none } }
      = (.error (.appi 400 "Avatar file is required"), demoWorld) :=
  (registerUser_without_avatar demoEnv demoWorld
    { fullName := some "Eve", email := some "eve@x.io", userName := some "eve",
      password := some "p3", files := some { avatar := some [], coverImage := none } }
    (Or.inr ⟨_, rfl, rfl⟩)).trans rfl

/-! ## getWatchHistory -/

/-- C8: the guard of `getWatchHistory` reads `watchHistory` on the array of the
aggregation, not on its first document.  For `ada`, whose history resolves to one
video with its owner, the handler answers 404 "Watch history not found", as it does
for every store and user. -/
theorem getWatchHistory_rejects_nonempty_history :
    (watchHistoryAggregate demoWorld 1).map (fun d => d.watchHistory)
      = [[{ _id := 10, title := "intro",
            owner := some { _id := 2, fullName := "Bob", userName := "bob",
                            avatar := "https://cdn.example/bob.png" } }]]
    ∧ getWatchHistory demoWorld 1 = .error (.appi 404 "Watch history not found")
    ∧ ∀ (w : World) (userId : Nat),
        getWatchHistory w userId = .error (.appi 404 "Watch history not found") := by
  exact ⟨rfl, rfl, fun _ _ => rfl⟩

/-! ## getUserChannelProfile -/

/-- The first element a predicate holds of heads the filtered list. -/
theorem filter_eq_cons_of_find? {α : Type} (p : α → Bool) (l : List α) (a : α)
    (h : l.find? p = some a) : ∃ rest, l.filter p = a :: rest := by
  induction l with
  | nil => simp at h
  | cons x xs ih =>
    by_cases hx : p x = true
    · simp [List.find?, hx] at h
      subst h
      exact ⟨xs.filter p, by simp [List.filter, hx]⟩
    · simp [List.find?, hx] at h
      obtain ⟨rest, hrest⟩ := ih h
      exact ⟨rest, by simp [List.filter, hx, hrest]⟩

/-- The operator `$in` on the subscribers of a channel: some edge to the channel
comes from the viewer. -/
theorem mongoIn_subscribers_iff (subscriptions : List Subscription) (viewerId : Option Nat)
    (channel : Nat) :
    mongoIn viewerId ((subscriptions.filter (fun e => e.channel == channel)).map
        (fun e => e.subscriber)) = true
      ↔ ∃ v, viewerId = some v ∧ ∃ e ∈ subscriptions, e.channel = channel ∧ e.subscriber = v := by
  cases viewerId with
  | none => simp [mongoIn]
  | some v =>
    simp [mongoIn, and_assoc]

/-- C9: for a userName that is not blank and whose lowercase form is the userName
of the stored user `target`, `getUserChannelProfile` answers 200 with the profile of
`target`, in which `isSubscribed` holds exactly when a viewer is given and some
subscription has `target` as channel and the viewer as subscriber,
`subscribersCount` is the number of subscriptions whose channel is `target`, and
`channelsSubscribedToCount` the number of those whose subscriber is `target`. -/
theorem getUserChannelProfile_profile (env : Env) (w : World) (name : String)
    (viewerId : Option Nat) (target : User)
    (hname : jsTrim name ≠ "")
    (htarget : w.users.find? (fun u => u.userName == env.toLowerCase name) = some target) :
    getUserChannelProfile env w { userName := some name, viewerId := viewerId }
      = .ok { status := 200, cookies := [], clearedCookies := [],
              json := { statusCode := 200,
                        data := channelProfileOf w.subscriptions viewerId target,
                        message := "User channel fetched successfully" } }
    ∧ ((channelProfileOf w.subscriptions viewerId target).isSubscribed = true
        ↔ ∃ v, viewerId = some v ∧
            ∃ e ∈ w.subscriptions, e.channel = target._id ∧ e.subscriber = v)
    ∧ (channelProfileOf w.subscriptions viewerId target).subscribersCount
        = w.subscriptions.countP (fun e => e.channel == target._id)
    ∧ (channelProfileOf w.subscriptions viewerId target).channelsSubscribedToCount
        = w.subscriptions.countP (fun e => e.subscriber == target._id) := by
  refine ⟨?_, ?_, ?_, ?_⟩
  · obtain ⟨rest, hrest⟩ := filter_eq_cons_of_find? _ _ _ htarget
    simp [getUserChannelProfile, truthy_some_of_ne_empty _ hname, channelAggregate, hrest]
  · exact mongoIn_subscribers_iff w.subscriptions viewerId target._id
  · simp [channelProfileOf, List.countP_eq_length_filter]
  · simp [channelProfileOf, List.countP_eq_length_filter]

/-- The theorem `getUserChannelProfile_profile` at the channel `AdaL`, seen by `bob`. -/
theorem getUserChannelProfile_profile_witness :
    getUserChannelProfile demoEnv demoWorld { userName := some "AdaL", viewerId := some 2 }
      = .ok { status := 200, cookies := [], clearedCookies := [],
              json := { statusCode := 200,
                        data := { _id := 1, fullName := "Ada L", userName := "adal",
                                  subscribersCount := 1, channelsSubscribedToCount := 0,
                                  isSubscribed := true,
                                  avatar := "https://cdn.example/ada.png", coverImage := "",
                                  email := "ada@x.io" },
                        message := "User channel fetched successfully" } } :=
  (getUserChannelProfile_profile demoEnv demoWorld "AdaL" (some 2) ada (by decide) rfl).1.trans rfl

/-! ## logoutUser, then refreshAccessToken -/

/-- After `updateById`, the document found under the `_id` is the image of the one
found before, when the update keeps the `_id`. -/
theorem findById_updateById (users : List User) (id : Nat) (f : User → User)
    (hf : ∀ u, (f u)._id = u._id) :
    findById (updateById users id f) (some id) = (findById users (some id)).map f := by
  induction users with
  | nil => simp [findById, updateById]
  | cons x xs ih =>
    by_cases hx : x._id = id
    · simp [findById, updateById, hx, hf]
    · have hx2 : (x._id == id) = false := by simpa using hx
      simp only [findById] at ih
      simp [findById, updateById, hx2, List.find?, ih]

/-- C10: for a user who holds the refresh token `t` (a non-empty token that, when
it verifies, carries that user's `_id`), after `logoutUser` no refresh token is
stored for the user, and a `refreshAccessToken` that presents `t` is answered
with a 401, with no response and the store as `logoutUser` left it. -/
theorem logout_then_refresh_unauthorized (env : Env) (w : World) (userId : Nat) (user : User)
    (t : String) (req : RefreshRequest)
    (hu : findById w.users (some userId) = some user)
    (_hstored : user.refreshToken = some t) (ht : t ≠ "")
    (hid : ∀ payload, env.jwtVerify t = .ok payload → payload._id = some userId)
    (hin : incomingRefreshTokenOf req = some t) :
    (findById (logoutUser w userId).2.users (some userId)).map (fun u => u.refreshToken)
      = some none
    ∧ ∃ message, refreshAccessToken env (logoutUser w userId).2 req
        = (.error (.appi 401 message), (logoutUser w userId).2) := by
  have hfind : findById (logoutUser w userId).2.users (some userId)
      = some { user with refreshToken := none } := by
    simp only [logoutUser]
    rw [findById_updateById w.users userId (fun u => { u with refreshToken := none })
      (fun _ => rfl), hu]
    rfl
  refine ⟨by rw [hfind]; rfl, ?_⟩
  simp only [refreshAccessToken, hin, truthy_some_of_ne_empty t ht, refreshTry]
  cases hv : env.jwtVerify t with
  | error m => exact ⟨_, rfl⟩
  | ok payload =>
    have hp := hid payload hv
    simp [hp, hfind, refreshCatch, messageOr, JsError.message]

/-- The theorem `logout_then_refresh_unauthorized` at `ada` and her token `refresh-old`. -/
theorem logout_then_refresh_unauthorized_witness :
    (findById (logoutUser demoWorld 1).2.users (some 1)).map (fun u => u.refreshToken)
      = some none
    ∧ ∃ message, refreshAccessToken demoEnv (logoutUser demoWorld 1).2
          { cookieRefreshToken := some "refresh-old", bodyRefreshToken := none }
        = (.error (.appi 401 message), (logoutUser demoWorld 1).2) :=
  logout_then_refresh_unauthorized demoEnv demoWorld 1 ada "refresh-old"
    { cookieRefreshToken := some "refresh-old", bodyRefreshToken := none }
    rfl rfl (by decide) (by intro payload h; cases h; rfl) rfl

end VideoTube
